import Mathlib

/- Verification development for the RakshakAI real-time call-session pipeline.

Shallow embedding of the backend services:
  backend/core/config.py                     (threat thresholds)
  backend/services/threat_analyzer.py        (ThreatAnalyzer, KeywordSpotter)
  backend/services/intelligence_extractor.py (entity masking, extraction core)
  backend/services/audio_processor.py        (voice-activity detection)
  backend/services/bait_agent.py             (decoy engagement state machine)
  backend/api/main.py                        (handle_audio_chunk control flow)

Modelling conventions:
  - Python floats are modelled as exact rationals; every numeric literal of the
    source appears as the corresponding rational constant.
  - Python strings are modelled as String, with character-level work done on
    List Char; the embedded code paths only handle ASCII data.
  - Python dicts returned by the services become structures; a dict key that a
    code path may leave absent becomes a field with the dict-get default.
  - Side effects of the websocket handler are reified as a list of Effect
    values, in program order.
-/

namespace Rakshak

/-- Settings (config.py lines 86 and 95-97): the configured threat thresholds
and the audio sample rate, with their source defaults. -/
structure Settings where
  threat_threshold_low : ℚ := 3/10
  threat_threshold_medium : ℚ := 6/10
  threat_threshold_high : ℚ := 85/100
  audio_sample_rate : ℕ := 16000
deriving DecidableEq

/-- The default settings instance (the Field defaults of config.py). -/
def defaultSettings : Settings := {}

/-- ThreatAnalyzer._get_threat_level (threat_analyzer.py lines 346-357). -/
def getThreatLevel (st : Settings) (score : ℚ) : String :=
  if st.threat_threshold_high ≤ score then "critical"
  else if st.threat_threshold_medium ≤ score then "high"
  else if st.threat_threshold_low ≤ score then "medium"
  else if 1/10 < score then "low"
  else "safe"

/-- ThreatAnalyzer._get_recommended_action (threat_analyzer.py lines 359-368).
The level argument is accepted and ignored, exactly as in the source. -/
def getRecommendedAction (st : Settings) (score : ℚ) (level : String) : String :=
  if st.threat_threshold_high ≤ score then "handoff_to_ai"
  else if st.threat_threshold_medium ≤ score then "alert_user"
  else if st.threat_threshold_low ≤ score then "increase_monitoring"
  else "continue_monitoring"

/-- Round an exact rational to an integer, ties to even: the behaviour of
the Python built-in round on the exact value. -/
def roundHalfEven (q : ℚ) : ℤ :=
  let n := ⌊q⌋
  let f := q - n
  if f < 1/2 then n
  else if 1/2 < f then n + 1
  else if n % 2 = 0 then n else n + 1

/-- Python round(x, 3) on the exact rational value. -/
def round3 (q : ℚ) : ℚ := (roundHalfEven (q * 1000) : ℚ) / 1000

/-- Score fusion (threat_analyzer.py lines 192-199): truncate the fixed weight
list [0.4, 0.2, 0.3, 0.1] to the number of available scores, renormalise the
truncated weights to sum 1, and take the weighted sum; an empty score list
yields 0.  The weights are positional: they attach to however many scores are
present, in the order the layers were appended. -/
def fuseScores (scores : List ℚ) : ℚ :=
  if scores = [] then 0
  else
    let ws := [4/10, 2/10, 3/10, (1:ℚ)/10].take scores.length
    (((scores.zip ws).map fun p => p.1 * p.2).sum) / ws.sum

/- ------------------------------------------------------------------
Character-list utilities used by the keyword / behavioural layers.
------------------------------------------------------------------ -/

/-- Python str.lower on ASCII text. -/
def lowerChars (s : List Char) : List Char := s.map Char.toLower

/-- Python substring containment: needle in haystack. -/
def containsSub (needle : List Char) : List Char → Bool
  | [] => needle.isEmpty
  | c :: rest => needle.isPrefixOf (c :: rest) || containsSub needle rest

/-- Character-by-character scanner behind scanMatches.  skip counts characters
still covered by the previous match, which findall does not rescan. -/
def scanSkip (pats : List (List Char)) : List Char → ℕ → List (List Char)
  | [], _ => []
  | _ :: rest, skip + 1 => scanSkip pats rest skip
  | c :: rest, 0 =>
    match pats.find? (fun p => !p.isEmpty && p.isPrefixOf (lowerChars (c :: rest))) with
    | some p => (c :: rest).take p.length :: scanSkip pats rest (p.length - 1)
    | none => scanSkip pats rest 0

/-- re.findall for an alternation of case-insensitively matched literal
keywords (KeywordSpotter compiles each category to such a regex): scan left to
right; at each position take the first alternative that matches (Python regex
alternation preference), emit the matched slice of the original text, and
resume after it; otherwise advance one character.  All source keywords are
nonempty and lowercase; the emptiness guard is defensive only. -/
def scanMatches (pats : List (List Char)) (s : List Char) : List (List Char) :=
  scanSkip pats s 0

/-- Accumulator-style worker for splitWs; cur holds the current word in
reverse. -/
def splitWsAux (cur : List Char) : List Char → List (List Char)
  | [] => if cur.isEmpty then [] else [cur.reverse]
  | c :: rest =>
    if c.isWhitespace then
      if cur.isEmpty then splitWsAux [] rest
      else cur.reverse :: splitWsAux [] rest
    else splitWsAux (c :: cur) rest

/-- Python str.split with no argument (split on whitespace runs, discarding
empty pieces), applied to a character list. -/
def splitWs (s : List Char) : List (List Char) := splitWsAux [] s

/- ------------------------------------------------------------------
KeywordSpotter (threat_analyzer.py lines 377-430).
------------------------------------------------------------------ -/

/-- ThreatAnalyzer.SCAM_KEYWORDS (threat_analyzer.py lines 35-112), in dict
insertion order. -/
def SCAM_KEYWORDS : List (String × List String) := [
  ("urgent", ["immediate action required", "act now", "limited time", "urgent",
    "emergency", "last chance", "today only", "right now"]),
  ("financial", ["bank account", "credit card", "debit card", "upi", "paytm",
    "google pay", "phonepe", "otp", "pin", "password", "cvv", "expiry date",
    "account number", "ifsc code"]),
  ("impersonation", ["reserve bank of india", "rbi", "income tax department",
    "cyber crime", "police department", "cbi", "enforcement directorate",
    "customs department", "narcotics bureau", "your bank",
    "your insurance company"]),
  ("threats", ["arrest warrant", "legal action", "court case", "fir",
    "police complaint", "account frozen", "account blocked",
    "sim card blocked", "pan card blocked"]),
  ("remote_access", ["anydesk", "teamviewer", "quick support",
    "screen sharing", "remote access", "install app", "download software"]),
  ("verification", ["kyc verification", "kyc update", "aadhaar verification",
    "pan verification", "document verification", "verify your identity"]),
  ("prize", ["you have won", "lottery", "lucky draw", "prize money",
    "cash prize", "free gift", "congratulations"])]

/-- The category_scores table of KeywordSpotter.analyze (lines 400-408); the
source looks categories up with default 0.1. -/
def categoryScore : String → ℚ
  | "urgent" => 15/100
  | "financial" => 2/10
  | "impersonation" => 25/100
  | "threats" => 25/100
  | "remote_access" => 2/10
  | "verification" => 15/100
  | "prize" => 2/10
  | _ => 1/10

/-- Per category, the findall result on the transcript (lines 410-411). -/
def categoryMatches (t : String) : List (String × List String) :=
  SCAM_KEYWORDS.map fun cw =>
    (cw.1, (scanMatches (cw.2.map String.toList) t.toList).map fun m => String.mk m)

structure KeywordResult where
  score : ℚ
  matched_keywords : List String
  indicators : List String
deriving DecidableEq

/-- KeywordSpotter.analyze (threat_analyzer.py lines 392-430).  Python builds
matched_keywords as list(set(...)): modelled as first-occurrence dedup.  The
source computes the distinct-category count by stripping the indicator suffix;
at that point the indicators are exactly the names of the matched categories
with the suffix appended, so the count below is the same number. -/
def keywordAnalyze (t : String) : KeywordResult :=
  let per := categoryMatches t
  let matched := (per.map Prod.snd).flatten
  let indicators := (per.filter fun cw => !cw.2.isEmpty).map fun cw => cw.1 ++ "_keywords_detected"
  let score0 : ℚ := (per.map fun cw =>
    if cw.2.isEmpty then 0 else categoryScore cw.1 * (cw.2.length : ℚ)).sum
  let uniqueCategories := ((per.filter fun cw => !cw.2.isEmpty).map Prod.fst).dedup.length
  let score1 := if 2 ≤ uniqueCategories then score0 + (1/10) * (uniqueCategories : ℚ) else score0
  let indicators1 := if 2 ≤ uniqueCategories then indicators ++ ["multiple_threat_categories"] else indicators
  { score := min 1 score1
    matched_keywords := matched.dedup
    indicators := indicators1 }

/- ------------------------------------------------------------------
Behavioural layer (threat_analyzer.py lines 114-120 and 264-284).
------------------------------------------------------------------ -/

/-- ThreatAnalyzer.BEHAVIORAL_FLAGS (lines 115-120), in dict insertion
order. -/
def BEHAVIORAL_FLAGS : List (String × List String) := [
  ("high_pressure", ["must", "immediately", "now", "urgent", "hurry"]),
  ("secrecy", ["don\x27t tell anyone", "keep it secret", "confidential",
    "don\x27t discuss"]),
  ("isolation", ["don\x27t contact bank", "don\x27t call police",
    "don\x27t tell family"]),
  ("unprofessional", ["sir/madam repeatedly", "heavy accent mismatch",
    "background noise"])]

/-- Per flag type, how many of its patterns occur as substrings of the
lowercased transcript (lines 270-274). -/
def behavioralHitCounts (t : String) : List (String × ℕ) :=
  let low := lowerChars t.toList
  BEHAVIORAL_FLAGS.map fun fp => (fp.1, (fp.2.filter fun p => containsSub p.toList low).length)

/-- The word list of the repetition heuristic: transcript_lower.split()
(line 277). -/
def wordList (t : String) : List (List Char) := splitWs (lowerChars t.toList)

structure BehavioralResult where
  score : ℚ
  flags : List String
deriving DecidableEq

/-- ThreatAnalyzer._analyze_behavior (lines 264-284).  The source appends a
flag-type name once per matching pattern and dedups through list(set(...)) at
the end; the dedup of the once-per-type list below is the same set. -/
def analyzeBehavior (t : String) : BehavioralResult :=
  let hits := behavioralHitCounts t
  let flags0 := (hits.filter fun h => 0 < h.2).map Prod.fst
  let score0 : ℚ := (15/100) * (((hits.map Prod.snd).sum : ℕ) : ℚ)
  let ws := wordList t
  let repetitive : Prop := 10 < ws.length ∧ (ws.dedup.length : ℚ) / (ws.length : ℚ) < 4/10
  let flags1 := if repetitive then flags0 ++ ["repetitive_speech"] else flags0
  let score1 := if repetitive then score0 + 1/10 else score0
  { score := min 1 score1, flags := flags1.dedup }

/- ------------------------------------------------------------------
Audio-feature layer (threat_analyzer.py lines 311-327).
------------------------------------------------------------------ -/

/-- The audio-features dict consumed by _analyze_audio_features; a key the
producer did not set is none. -/
structure AudioFeatures where
  duration : Option ℚ := none
  rms_energy : Option ℚ := none
  zero_crossing_rate : Option ℚ := none
deriving DecidableEq

/-- ThreatAnalyzer._analyze_audio_features (lines 311-327). -/
def analyzeAudioFeatures (f : AudioFeatures) : ℚ :=
  let s1 : ℚ := match f.rms_energy with
    | some e => if (1:ℚ)/2 < e then 1/10 else 0
    | none => 0
  let s2 : ℚ := match f.zero_crossing_rate with
    | some z => if (1:ℚ)/10 < z then 1/20 else 0
    | none => 0
  min 1 (s1 + s2)

/- ------------------------------------------------------------------
ThreatAnalyzer.analyze (threat_analyzer.py lines 150-215).
------------------------------------------------------------------ -/

structure AnalysisResult where
  threat_score : ℚ
  threat_level : String
  confidence : ℚ
  indicators : List String
  keywords : List String
  behavioral_flags : List String
  recommended_action : String
  escalation_detected : Bool := false

/-- Python truthiness of the transcript argument: None and the empty string
both skip the text layers. -/
def truthyTranscript : Option String → Option String
  | none => none
  | some t => if t.isEmpty then none else some t

/-- The scores list built by analyze (lines 163-191), in append order:
keyword, behavioural, ML classifier, audio.  The loaded classifier (a pickled
model external to the repository) is abstracted as an optional function from
the transcript to its (score, indicators) pair. -/
def availableScores (ml : Option (String → ℚ × List String))
    (transcript : Option String) (audioFeatures : Option AudioFeatures) : List ℚ :=
  let tOpt := truthyTranscript transcript
  ((tOpt.map fun t => (keywordAnalyze t).score).toList) ++
  ((tOpt.map fun t => (analyzeBehavior t).score).toList) ++
  ((ml.bind fun m => tOpt.map fun t => (m t).1).toList) ++
  ((audioFeatures.map analyzeAudioFeatures).toList)

/-- ThreatAnalyzer.analyze (lines 150-215).  The returned dict: threat_score
is rounded to three decimals, while the level and action are computed from the
unrounded fused score, as in the source. -/
def analyze (st : Settings) (ml : Option (String → ℚ × List String))
    (transcript : Option String) (audioFeatures : Option AudioFeatures) : AnalysisResult :=
  let tOpt := truthyTranscript transcript
  let kw := tOpt.map keywordAnalyze
  let beh := tOpt.map analyzeBehavior
  let mlRes : Option (ℚ × List String) := ml.bind fun m => tOpt.map fun t => m t
  let scores := availableScores ml transcript audioFeatures
  let threatScore := fuseScores scores
  { threat_score := round3 threatScore
    threat_level := getThreatLevel st threatScore
    confidence := round3 (min 1 ((scores.length : ℚ) * (25/100) + 1/2))
    indicators := (((kw.map KeywordResult.indicators).getD []) ++
      ((mlRes.map Prod.snd).getD [])).dedup
    keywords := ((kw.map KeywordResult.matched_keywords).getD []).dedup
    behavioral_flags := ((beh.map BehavioralResult.flags).getD []).dedup
    recommended_action := getRecommendedAction st threatScore (getThreatLevel st threatScore) }

/- ------------------------------------------------------------------
analyze_realtime context tracking (threat_analyzer.py lines 217-262, 329-344).
------------------------------------------------------------------ -/

/-- The per-call context dict of analyze_realtime (lines 229-236): transcripts
is a deque of maxlen 20, threat_scores a deque of maxlen 10 (most recent
last), keywords_seen a set modelled as a first-occurrence list.  start_time is
a timestamp never read by the embedded logic and is omitted. -/
structure CallContext where
  transcripts : List (Option String) := []
  threat_scores : List ℚ := []
  keywords_seen : List String := []
  escalation_count : ℕ := 0

/-- deque append with a maximum length: the oldest entry is evicted. -/
def pushBounded (maxlen : ℕ) (xs : List α) (x : α) : List α :=
  let ys := xs ++ [x]
  ys.drop (ys.length - maxlen)

/-- set.update on the keywords-seen set, preserving first insertion order. -/
def insertSet (xs : List String) (ks : List String) : List String :=
  ks.foldl (fun acc k => if k ∈ acc then acc else acc ++ [k]) xs

/-- The n most recent entries (Python list[-n:]). -/
def lastN (n : ℕ) (xs : List α) : List α := xs.drop (xs.length - n)

/-- ThreatAnalyzer._adjust_for_context (lines 329-344). -/
def adjustForContext (st : Settings) (score : ℚ) (ctx : CallContext) : ℚ :=
  let a1 := if 3 < ctx.keywords_seen.length then score + 1/10 else score
  let a2 := if 5 ≤ ctx.threat_scores.length ∧
      st.threat_threshold_medium < ctx.threat_scores.sum / (ctx.threat_scores.length : ℚ)
    then a1 + 1/10 else a1
  min 1 a2

/-- The per-turn body of analyze_realtime after the inner analyze call
(lines 240-262): append the transcript and the rounded score to the bounded
histories, merge the keywords into the seen-set, contextually adjust the
score, recompute the level from the adjusted score, and detect escalation
when the history holds at least three entries and the three most recent are
all strictly above the medium threshold, forcing the recommended action to
handoff_to_ai.  analyze_realtime st ml ctx t a =
realtimeUpdate st ctx t (analyze st ml t a). -/
def realtimeUpdate (st : Settings) (ctx : CallContext) (transcript : Option String)
    (result : AnalysisResult) : AnalysisResult × CallContext :=
  let ctx1 := { ctx with transcripts := pushBounded 20 ctx.transcripts transcript }
  let ctx2 := { ctx1 with
    threat_scores := pushBounded 10 ctx1.threat_scores result.threat_score
    keywords_seen := insertSet ctx1.keywords_seen result.keywords }
  let adjusted := adjustForContext st result.threat_score ctx2
  let r1 := { result with
    threat_score := round3 adjusted
    threat_level := getThreatLevel st adjusted }
  if 3 ≤ ctx2.threat_scores.length ∧
      ∀ s ∈ lastN 3 ctx2.threat_scores, st.threat_threshold_medium < s then
    ({ r1 with escalation_detected := true, recommended_action := "handoff_to_ai" }, ctx2)
  else (r1, ctx2)

/-- ThreatAnalyzer.analyze_realtime (lines 217-262) for a call whose context
is ctx (a fresh call starts from the default CallContext). -/
def analyzeRealtime (st : Settings) (ml : Option (String → ℚ × List String))
    (ctx : CallContext) (transcript : Option String)
    (audioFeatures : Option AudioFeatures) : AnalysisResult × CallContext :=
  realtimeUpdate st ctx transcript (analyze st ml transcript audioFeatures)

/- ------------------------------------------------------------------
IntelligenceExtractor masking and per-match extraction core
(intelligence_extractor.py lines 115-180 and 284-327).
------------------------------------------------------------------ -/

/-- re.sub of non-digits with the empty string: keep the digit characters. -/
def pyDigits (v : String) : List Char := v.toList.filter Char.isDigit

/-- Python s[-n:] for a character list (the guards at the call sites ensure
n never exceeds the length there). -/
def takeLastChars (n : ℕ) (l : List Char) : List Char := l.drop (l.length - n)

/-- IntelligenceExtractor._mask_sensitive (lines 284-312). -/
def maskSensitive (entityType value : String) : String :=
  if entityType = "aadhaar" then
    let ds := pyDigits value
    if 4 ≤ ds.length then "XXXX-XXXX-" ++ String.mk (takeLastChars 4 ds)
    else "XXXX-XXXX-XXXX"
  else if entityType = "pan" then
    if 4 ≤ value.length then
      String.mk (value.toList.take 2) ++ "XXXX" ++ String.mk (takeLastChars 2 value.toList)
    else "XXXXX0000X"
  else if entityType = "credit_card" then
    let ds := pyDigits value
    if 4 ≤ ds.length then "XXXX-XXXX-XXXX-" ++ String.mk (takeLastChars 4 ds)
    else "XXXX-XXXX-XXXX-XXXX"
  else if entityType = "bank_account" then
    if 4 ≤ value.length then "XXXXXX" ++ String.mk (takeLastChars 4 value.toList)
    else "XXXXXXXX"
  else if entityType = "otp" then "XXXX"
  else if entityType = "cvv" then "XXX"
  else value

/-- ExtractedEntity (intelligence_extractor.py lines 16-24). -/
structure ExtractedEntity where
  entity_type : String
  value : String
  confidence : ℚ
  context : String
  position : ℕ
  verified : Bool := false
deriving DecidableEq

/-- One raw regex match: entity type, matched text, match start. -/
structure PatternMatch where
  entity_type : String
  value : String
  position : ℕ
deriving DecidableEq

/-- IntelligenceExtractor._deduplicate (lines 314-327): keep the first entity
for each (type, lowercased value) key. -/
def dedupEntities (seen : List (String × String)) : List ExtractedEntity → List ExtractedEntity
  | [] => []
  | e :: rest =>
    let key := (e.entity_type, String.mk (lowerChars e.value.toList))
    if key ∈ seen then dedupEntities seen rest
    else e :: dedupEntities (key :: seen) rest

/-- The per-match body of IntelligenceExtractor.extract (lines 128-172).  The
regex table traversal (PATTERNS / finditer) is abstracted as the list of raw
matches in traversal order, and _calculate_confidence as the conf argument;
everything downstream of the match — the context slice, the confidence floor
of 0.3, the mandatory masking of the stored value, and deduplication — is
embedded as written. -/
def extractCore (transcript : String) (conf : PatternMatch → ℚ)
    (rawMatches : List PatternMatch) : List ExtractedEntity :=
  let entities := rawMatches.filterMap fun m =>
    if conf m < 3/10 then none
    else
      let cs := transcript.toList
      let contextEnd := min cs.length (m.position + m.value.length + 50)
      some { entity_type := m.entity_type
             value := maskSensitive m.entity_type m.value
             confidence := conf m
             context := String.mk ((cs.take contextEnd).drop (m.position - 50))
             position := m.position
             verified := false }
  dedupEntities [] entities

/- ------------------------------------------------------------------
AudioProcessor.detect_voice_activity (audio_processor.py lines 75-137).
------------------------------------------------------------------ -/

/-- The result dict of detect_voice_activity.  The features sub-dict is
omitted from this model: its values are floating-point spectral statistics
(square-root RMS energy, zero-crossing rate, optional librosa features) that
the handler passes opaquely to the analyzer and that no verified claim reads.
The source key speech_ratio is named speechFraction here. -/
structure VadResult where
  is_speech : Bool
  speech_duration_ms : ℕ
  speechFraction : ℚ
deriving DecidableEq

/-- Python range(0, stop, step) over the naturals with positive step; a
non-positive Python stop corresponds to stop = 0 after ℕ truncation, giving
the same empty range. -/
def rangeStep (stop step : ℕ) : List ℕ := (List.range ((stop + step - 1) / step)).map (· * step)

/-- Mean square of the int16 samples normalised to [-1, 1) (the square of the
source's RMS energy).  The source computes sqrt of this mean and compares it
with thresholds; this model keeps the square and compares with the squared
thresholds, which is equivalent since both sides are nonnegative.  For an
empty sample array numpy yields NaN, whose comparisons are all false; the
value 0 below produces the same branch outcomes. -/
def rmsSqOf (samples : List Int) : ℚ :=
  if samples.length = 0 then 0
  else (samples.map fun (x : Int) => ((x : ℚ) / 32768) ^ 2).sum / (samples.length : ℚ)

/-- The energy fallback of detect_voice_activity (lines 118-120):
sqrt(mean square) > 0.01, compared in squared form. -/
def energyIsSpeech (samples : List Int) : Bool :=
  if (1:ℚ)/10000 < rmsSqOf samples then true else false

/-- AudioProcessor.detect_voice_activity (lines 75-137) on a decoded int16
sample array.  The webrtcvad per-frame decision (an external library call) is
abstracted as an optional Bool-valued function on the frame; none models VAD
unavailable.  The frame loop is range(0, len - frame_size, frame_size) with a
30 ms frame (480 samples at the default 16 kHz): every sample from the last
complete frame onwards is never examined.  No input is ever rejected: there is
no error path for unsupported durations. -/
def detectVoiceActivity (st : Settings) (vadF : Option (List Int → Bool))
    (samples : List Int) : VadResult :=
  let frameSize := st.audio_sample_rate * 30 / 1000
  match vadF with
  | some f =>
    if 0 < samples.length then
      let frames := (rangeStep (samples.length - frameSize) frameSize).map
        fun i => (samples.drop i).take frameSize
      let speechFrames := (frames.filter f).length
      let frac : ℚ := if 0 < frames.length then (speechFrames : ℚ) / (frames.length : ℚ) else 0
      { is_speech := if 0 < speechFrames ∨ (3:ℚ)/10 < frac then true else false
        speech_duration_ms := speechFrames * 30
        speechFraction := frac }
    else
      { is_speech := energyIsSpeech samples, speech_duration_ms := 0, speechFraction := 0 }
  | none =>
      { is_speech := energyIsSpeech samples, speech_duration_ms := 0, speechFraction := 0 }

/-- Modelled from the spec: the AudioGate duration contract of spec section
4.2, which is not implemented anywhere under src/ — frames whose duration is
not a supported 10/20/30 ms equivalent are rejected with an
InvalidFrameDuration error instead of being processed.  At a sample rate of
16 kHz the supported frame lengths are 160, 320 and 480 samples. -/
def specFrameDurationCheck (st : Settings) (samples : List Int) : Except String Unit :=
  if samples.length = st.audio_sample_rate * 10 / 1000 ∨
      samples.length = st.audio_sample_rate * 20 / 1000 ∨
      samples.length = st.audio_sample_rate * 30 / 1000 then
    Except.ok ()
  else Except.error "InvalidFrameDuration"

/- ------------------------------------------------------------------
handle_audio_chunk (api/main.py lines 495-597).
------------------------------------------------------------------ -/

/-- The session fields handle_audio_chunk reads or writes. -/
structure Session where
  threat_score : ℚ := 0
  status : String := "monitoring"
  ai_handoff : Bool := false
deriving DecidableEq

/-- The externally visible actions of handle_audio_chunk, in program order:
the transcribe call (step 2), the bait-agent call plus ai_response message
(step 3), the analyze_realtime call (step 4), the session update, the
threat_update message (step 5), the broadcast alert (step 6), and the
store_audio_chunk evidence call (the privacy filter). -/
inductive Effect where
  | transcribeCall : Effect
  | aiResponse : Effect
  | scoringCall : Effect
  | sessionUpdate (score : ℚ) (status : String) : Effect
  | threatUpdateMsg (score : ℚ) (level : String) (alertTriggered : Bool) : Effect
  | broadcastAlert (score : ℚ) : Effect
  | storeAudio (score : ℚ) (sequence : ℕ) : Effect
deriving DecidableEq

/-- handle_audio_chunk (main.py lines 495-597), with the VAD result and the
analyzer result it would obtain from its collaborators passed as arguments
(threatResult is what analyze_realtime returns for this turn; it is only
consulted on the path that actually performs scoring).  baitAgentUp models
the bait_agent global being non-None.  Returns the reified effect list and
the session as updated by manager.update_session. -/
def handleAudioChunk (st : Settings) (baitAgentUp : Bool) (session : Option Session)
    (vad : VadResult) (threatResult : AnalysisResult) (sequence : ℕ) :
    List Effect × Option Session :=
  match session with
  | none => ([], none)
  | some s =>
    if vad.is_speech = false then ([], some s)
    else if s.ai_handoff && baitAgentUp then
      ([Effect.transcribeCall, Effect.aiResponse], some s)
    else
      let score := threatResult.threat_score
      let status := if st.threat_threshold_medium < score then "threat_detected" else "monitoring"
      (([Effect.transcribeCall, Effect.scoringCall,
         Effect.sessionUpdate score status,
         Effect.threatUpdateMsg score threatResult.threat_level
           (if st.threat_threshold_high < score then true else false)] ++
        (if st.threat_threshold_high < score then [Effect.broadcastAlert score] else []) ++
        (if st.threat_threshold_low < score then [Effect.storeAudio score sequence] else [])),
       some { s with threat_score := score, status := status })

/- ------------------------------------------------------------------
BaitAgent engagement stages (bait_agent.py lines 23-34, 159-219, 500-509).
------------------------------------------------------------------ -/

/-- BaitAgent._update_engagement_stage (lines 500-509) as a function of
total_responses. -/
def updateEngagementStage (totalResponses : ℕ) : String :=
  if totalResponses < 3 then "initial"
  else if totalResponses < 8 then "building_trust"
  else if totalResponses < 15 then "extracting"
  else "terminating"

/-- ConversationState (bait_agent.py lines 23-34) restricted to the fields the
embedded logic reads or writes; transcript entries are (speaker, text) pairs,
timestamps and the patience level are dropped. -/
structure ConversationState where
  call_id : String
  persona : String
  transcript_history : List (String × String) := []
  intelligence_extracted : List ExtractedEntity := []
  engagement_stage : String := "initial"
  total_responses : ℕ := 0
deriving DecidableEq

/-- The state mutation of BaitAgent.process_caller_input (lines 159-219) for
an engagement that exists: increment total_responses, append the scammer turn,
extend the extracted intelligence, recompute the engagement stage from the new
turn count, and append the agent reply.  The extractor output and the selected
reply text are parameters (the regex table and the random canned-reply choice
are external to this model). -/
def processCallerInput (state : ConversationState) (transcript : String)
    (entities : List ExtractedEntity) (responseText : String) : ConversationState :=
  let st1 := { state with total_responses := state.total_responses + 1 }
  let st2 := { st1 with transcript_history := st1.transcript_history ++ [("scammer", transcript)] }
  let st3 := { st2 with intelligence_extracted := st2.intelligence_extracted ++ entities }
  let st4 := { st3 with engagement_stage := updateEngagementStage st3.total_responses }
  { st4 with transcript_history := st4.transcript_history ++ [("agent", responseText)] }

/-- Order of the engagement stages, for stating monotonicity. -/
def stageRank : String → ℕ
  | "building_trust" => 1
  | "extracting" => 2
  | "terminating" => 3
  | _ => 0

/- ------------------------------------------------------------------
Spec-side definition for the refinement comparison of claim C3, and
concrete test fixtures.
------------------------------------------------------------------ -/

/-- Modelled from the spec: score fusion as claim C3 reads it — the fixed
weights keyed to the layer identity (keyword 0.4, behavioural 0.2, classifier
0.3, audio 0.1), restricted to exactly the layers present and renormalised to
sum 1.  To be compared against fuseScores/availableScores, which the source
implements positionally. -/
def specFusedScore (kw beh ml audio : Option ℚ) : ℚ :=
  let present := ([(kw, (4:ℚ)/10), (beh, 2/10), (ml, 3/10), (audio, 1/10)].filterMap
    fun p => p.1.map fun s => (s, p.2))
  if present = [] then 0
  else ((present.map fun p => p.1 * p.2).sum) / ((present.map Prod.snd).sum)

/-- A threat-analysis result carrying only a fused score, used as a concrete
turn result when exercising the handler and the realtime context logic. -/
def constResult (q : ℚ) : AnalysisResult :=
  { threat_score := q, threat_level := "", confidence := 0, indicators := []
    keywords := [], behavioral_flags := [], recommended_action := "" }

/-- The example transcript of spec section 8 (claim C8). -/
def c8transcript : String :=
  "Sir, your KYC has expired. Give me your card number, CVV, and OTP now"

/-- A benign transcript that fires no keyword category and no behavioural
pattern; used as the keyword-silent turn of the C3 counterexample. -/
def c3transcript : String := "hello there"

/-- Audio features whose layer score is 0.15 (loud and agitated). -/
def c3audioFeatures : AudioFeatures :=
  { rms_energy := some (6/10), zero_crossing_rate := some (2/10) }

/-- A 15 ms chunk (240 samples at 16 kHz): not a supported 10/20/30 ms frame
duration. -/
def c7samples : List Int := List.replicate 240 1000

/- ==================================================================
Theorems.  General helper lemmas first, then one theorem per claim
(with its counterexample and witness where required).
================================================================== -/

/-- Evaluation rule for round3 when the scaled value rounds down. -/
theorem round3_of_floor (q : ℚ) (n : ℤ) (hf : ⌊q * 1000⌋ = n) (h : q * 1000 - n < 1/2) :
    round3 q = (n : ℚ) / 1000 := by
  simp only [round3, roundHalfEven, hf]
  rw [if_pos h]

/-- Evaluation rule for round3 when the scaled value rounds up. -/
theorem round3_of_ceil (q : ℚ) (n : ℤ) (hf : ⌊q * 1000⌋ = n) (h : 1/2 < q * 1000 - n) :
    round3 q = ((n + 1 : ℤ) : ℚ) / 1000 := by
  simp only [round3, roundHalfEven, hf]
  rw [if_neg (by linarith), if_pos h]

/-- round3 fixes rationals that already have at most three decimals. -/
theorem round3_fixed (n : ℤ) : round3 ((n : ℚ) / 1000) = (n : ℚ) / 1000 := by
  have hq : ((n : ℚ) / 1000) * 1000 = (n : ℚ) := by ring
  rw [round3_of_floor ((n : ℚ) / 1000) n (by rw [hq, Int.floor_intCast]) (by rw [hq]; norm_num)]

/-- The engagement stage is monotone in the turn count. -/
theorem stageRank_mono (m n : ℕ) (h : m ≤ n) :
    stageRank (updateEngagementStage m) ≤ stageRank (updateEngagementStage n) := by
  unfold updateEngagementStage
  split_ifs <;> simp [stageRank] <;> omega

/-- Deduplication only removes entities; it never invents one. -/
theorem mem_dedupEntities {e : ExtractedEntity} :
    ∀ (seen : List (String × String)) (l : List ExtractedEntity),
      e ∈ dedupEntities seen l → e ∈ l := by
  intro seen l
  induction l generalizing seen with
  | nil => intro he; simpa [dedupEntities] using he
  | cons a rest ih =>
    intro he
    simp only [dedupEntities] at he
    by_cases hk : (a.entity_type, String.mk (lowerChars a.value.toList)) ∈ seen
    · rw [if_pos hk] at he
      exact List.mem_cons_of_mem _ (ih _ he)
    · rw [if_neg hk] at he
      rcases List.mem_cons.mp he with he | he
      · exact he ▸ List.mem_cons_self _ _
      · exact List.mem_cons_of_mem _ (ih _ he)

/-- C1 counterexample.  The claim maps scores below the low cut point to tier
safe, scores in [low, medium) to tier low, and a score equal to the high cut
point to tier high.  With the default cut points the code tiers 0.2 (below
low) as low, 0.4 (in [low, medium)) as medium, and the high cut point itself
as critical. -/
theorem C1_counterexample :
    getThreatLevel defaultSettings (2/10) = "low" ∧
    (2:ℚ)/10 < defaultSettings.threat_threshold_low ∧
    getThreatLevel defaultSettings (4/10) = "medium" ∧
    defaultSettings.threat_threshold_low ≤ (4:ℚ)/10 ∧
    (4:ℚ)/10 < defaultSettings.threat_threshold_medium ∧
    getThreatLevel defaultSettings defaultSettings.threat_threshold_high = "critical" := by
  refine ⟨?_, by norm_num [defaultSettings], ?_, by norm_num [defaultSettings],
    by norm_num [defaultSettings], ?_⟩ <;>
    norm_num [getThreatLevel, defaultSettings]

/-- C1 (amended): for configured cut points with 0.1 < low < medium < high,
the tier is critical iff the score is at or above high (a score exactly equal
to high counts as critical, not high), high iff it lies in [medium, high),
medium iff it lies in [low, medium), low iff it lies in (0.1, low), and safe
iff it is at most the fixed floor 0.1. -/
theorem C1_tier_mapping (st : Settings) (s : ℚ)
    (h0 : 1/10 < st.threat_threshold_low)
    (h1 : st.threat_threshold_low < st.threat_threshold_medium)
    (h2 : st.threat_threshold_medium < st.threat_threshold_high) :
    (getThreatLevel st s = "critical" ↔ st.threat_threshold_high ≤ s) ∧
    (getThreatLevel st s = "high" ↔
      st.threat_threshold_medium ≤ s ∧ s < st.threat_threshold_high) ∧
    (getThreatLevel st s = "medium" ↔
      st.threat_threshold_low ≤ s ∧ s < st.threat_threshold_medium) ∧
    (getThreatLevel st s = "low" ↔ 1/10 < s ∧ s < st.threat_threshold_low) ∧
    (getThreatLevel st s = "safe" ↔ s ≤ 1/10) := by
  unfold getThreatLevel
  split_ifs with hh hm hl hq <;>
    refine ⟨?_, ?_, ?_, ?_, ?_⟩ <;> constructor <;> intro h <;>
      first
        | rfl
        | exact absurd h (by decide)
        | linarith
        | exact ⟨by linarith, by linarith⟩
        | (exfalso; obtain ⟨ha, hb⟩ := h; linarith)
        | (exfalso; linarith)

/-- Witness for C1_tier_mapping at the default cut points and score 0.4. -/
theorem C1_tier_mapping_witness : getThreatLevel defaultSettings (4/10) = "medium" :=
  ((C1_tier_mapping defaultSettings (4/10) (by norm_num [defaultSettings])
      (by norm_num [defaultSettings]) (by norm_num [defaultSettings])).2.2.1).mpr
    (by norm_num [defaultSettings])

/-- C9: the engagement stage is the fixed function of the turn count — initial
for turns 0-2, building_trust for 3-7, extracting for 8-14, terminating for
15 and above — this function is monotone, and each processed caller turn
increments the turn count by exactly one and recomputes the stage from it, so
the stage never regresses while the engagement state exists. -/
theorem C9_stage_monotone :
    (∀ n : ℕ,
      (n < 3 → updateEngagementStage n = "initial") ∧
      (3 ≤ n → n < 8 → updateEngagementStage n = "building_trust") ∧
      (8 ≤ n → n < 15 → updateEngagementStage n = "extracting") ∧
      (15 ≤ n → updateEngagementStage n = "terminating")) ∧
    (∀ m n : ℕ, m ≤ n →
      stageRank (updateEngagementStage m) ≤ stageRank (updateEngagementStage n)) ∧
    (∀ (state : ConversationState) (t : String) (es : List ExtractedEntity) (r : String),
      state.engagement_stage = updateEngagementStage state.total_responses →
      (processCallerInput state t es r).total_responses = state.total_responses + 1 ∧
      (processCallerInput state t es r).engagement_stage =
        updateEngagementStage (processCallerInput state t es r).total_responses ∧
      stageRank state.engagement_stage ≤
        stageRank (processCallerInput state t es r).engagement_stage) := by
  refine ⟨?_, stageRank_mono, ?_⟩
  · intro n
    refine ⟨fun h => ?_, fun h h' => ?_, fun h h' => ?_, fun h => ?_⟩ <;>
      · unfold updateEngagementStage
        split_ifs <;> first | rfl | omega
  · intro state t es r hinv
    refine ⟨rfl, rfl, ?_⟩
    rw [hinv]
    exact stageRank_mono _ _ (Nat.le_succ _)

/-- Witness for C9_stage_monotone: the third component applied to a concrete
engagement in its initial state. -/
theorem C9_stage_monotone_witness :
    (processCallerInput
        { call_id := "c1", persona := "confused_senior" } "hello" [] "ji").total_responses = 1 ∧
    (processCallerInput
        { call_id := "c1", persona := "confused_senior" } "hello" [] "ji").engagement_stage =
      updateEngagementStage 1 ∧
    stageRank "initial" ≤ stageRank (processCallerInput
        { call_id := "c1", persona := "confused_senior" } "hello" [] "ji").engagement_stage :=
  C9_stage_monotone.2.2 { call_id := "c1", persona := "confused_senior" } "hello" [] "ji" rfl

/-- C10: calling the analyzer with no transcript (None or empty) and no audio
features — zero scoring layers — returns, for any loaded classifier, the
well-formed default result: score 0, level safe, confidence 0.5, action
continue_monitoring, and empty indicator, keyword and flag lists. -/
theorem C10_zero_layers (ml : Option (String → ℚ × List String)) :
    analyze defaultSettings ml none none =
      { threat_score := 0, threat_level := "safe", confidence := 1/2,
        indicators := [], keywords := [], behavioral_flags := [],
        recommended_action := "continue_monitoring", escalation_detected := false } ∧
    analyze defaultSettings ml (some "") none =
      { threat_score := 0, threat_level := "safe", confidence := 1/2,
        indicators := [], keywords := [], behavioral_flags := [],
        recommended_action := "continue_monitoring", escalation_detected := false } := by
  have hfuse : fuseScores [] = 0 := by simp [fuseScores]
  have hr0 : round3 (0 : ℚ) = 0 := by
    have := round3_fixed 0
    simpa using this
  have hhalf : round3 ((1 : ℚ)/2) = 1/2 := by
    have := round3_fixed 500
    norm_num at this
    exact this
  have hconf : round3 (min 1 ((([] : List ℚ).length : ℚ) * (25/100) + 1/2)) = 1/2 := by
    rw [show ((([] : List ℚ).length : ℚ) * (25/100) + 1/2) = 1/2 by norm_num]
    rw [min_eq_right (by norm_num)]
    exact hhalf
  have havail1 : availableScores ml none none = [] := by
    cases ml <;> simp [availableScores, truthyTranscript]
  have havail2 : availableScores ml (some "") none = [] := by
    cases ml <;>
      simp [availableScores, truthyTranscript, show ("" : String).isEmpty = true from rfl]
  constructor
  · rw [analyze]
    simp only [show truthyTranscript none = none from rfl, havail1, hfuse, hr0, hconf,
      Option.map_none']
    cases ml <;>
      norm_num [getThreatLevel, getRecommendedAction, defaultSettings]
  · rw [analyze]
    simp only [show truthyTranscript (some "") = none from rfl, havail2, hfuse, hr0, hconf,
      Option.map_none']
    cases ml <;>
      norm_num [getThreatLevel, getRecommendedAction, defaultSettings]

/-- C2 counterexample.  The claim triggers escalation when the three most
recent scores are at or above the medium threshold.  Here the bounded history
ends with three scores exactly equal to the default medium threshold 0.6, yet
the per-turn result has escalation_detected = false, because the code tests
strict inequality. -/
theorem C2_counterexample :
    3 ≤ (realtimeUpdate defaultSettings { threat_scores := [6/10, 6/10] } none
      (constResult (6/10))).2.threat_scores.length ∧
    (∀ s ∈ lastN 3 (realtimeUpdate defaultSettings { threat_scores := [6/10, 6/10] } none
      (constResult (6/10))).2.threat_scores, defaultSettings.threat_threshold_medium ≤ s) ∧
    (realtimeUpdate defaultSettings { threat_scores := [6/10, 6/10] } none
      (constResult (6/10))).1.escalation_detected = false := by
  have hpush : pushBounded 10 ([6/10, 6/10] : List ℚ) ((constResult (6/10)).threat_score) =
      [6/10, 6/10, 6/10] := by
    simp [pushBounded, constResult]
  have hcond : ¬(3 ≤ ([(6:ℚ)/10, 6/10, 6/10]).length ∧
      ∀ s ∈ lastN 3 [(6:ℚ)/10, 6/10, 6/10], defaultSettings.threat_threshold_medium < s) := by
    rintro ⟨-, hall⟩
    have h6 := hall (6/10) (by simp [lastN])
    norm_num [defaultSettings] at h6
  simp only [realtimeUpdate, hpush]
  rw [if_neg hcond]
  refine ⟨by simp, ?_, by simp [constResult]⟩
  intro s hs
  simp only [lastN] at hs
  norm_num at hs
  subst hs
  norm_num [defaultSettings]

/-- C2 (amended): if, after the current turn's rounded score is appended, the
bounded score history holds at least three entries and the three most recent
are each strictly above the configured medium threshold, the per-turn result
has escalation_detected = true and its recommended action is forced to
handoff_to_ai (the handoff-to-the-decoy action), regardless of the latest
single score.  Scores exactly at the medium threshold do not count. -/
theorem C2_escalation (st : Settings) (ctx : CallContext) (t : Option String)
    (r : AnalysisResult)
    (hlen : 3 ≤ (pushBounded 10 ctx.threat_scores r.threat_score).length)
    (hall : ∀ s ∈ lastN 3 (pushBounded 10 ctx.threat_scores r.threat_score),
      st.threat_threshold_medium < s) :
    (realtimeUpdate st ctx t r).1.escalation_detected = true ∧
    (realtimeUpdate st ctx t r).1.recommended_action = "handoff_to_ai" := by
  simp only [realtimeUpdate]
  split
  · simp
  · rename_i hcond
    exact absurd ⟨hlen, hall⟩ hcond

/-- Witness for C2_escalation: three scores of 0.7 in the default-configured
history trigger the escalation flag and the forced handoff action. -/
theorem C2_escalation_witness :
    (realtimeUpdate defaultSettings { threat_scores := [7/10, 7/10] } none
      (constResult (7/10))).1.escalation_detected = true ∧
    (realtimeUpdate defaultSettings { threat_scores := [7/10, 7/10] } none
      (constResult (7/10))).1.recommended_action = "handoff_to_ai" :=
  C2_escalation defaultSettings { threat_scores := [7/10, 7/10] } none (constResult (7/10))
    (by simp [pushBounded, constResult])
    (by intro s hs
        simp only [pushBounded, constResult, lastN] at hs
        norm_num at hs
        subst hs
        norm_num [defaultSettings])

/-- Keyword layer on the benign C3 transcript: no category fires. -/
theorem c3_catMatches : categoryMatches c3transcript = [("urgent", []), ("financial", []),
    ("impersonation", []), ("threats", []), ("remote_access", []), ("verification", []),
    ("prize", [])] := by decide

/-- Keyword score of the benign C3 transcript is zero. -/
theorem c3_kwScore : (keywordAnalyze c3transcript).score = 0 := by
  rw [keywordAnalyze, c3_catMatches]
  norm_num [categoryScore]

/-- Behavioural score of the benign C3 transcript is zero. -/
theorem c3_behScore : (analyzeBehavior c3transcript).score = 0 := by
  have hh : behavioralHitCounts c3transcript = [("high_pressure", 0), ("secrecy", 0),
      ("isolation", 0), ("unprofessional", 0)] := by decide
  have hw : (wordList c3transcript).length = 2 := by decide
  rw [analyzeBehavior, hh]
  rw [if_neg (by rw [hw]; rintro ⟨h10, -⟩; omega), if_neg (by rw [hw]; rintro ⟨h10, -⟩; omega)]
  norm_num

/-- Audio layer score of the C3 features is 0.15. -/
theorem c3_audio : analyzeAudioFeatures c3audioFeatures = 3/20 := by
  simp only [analyzeAudioFeatures, c3audioFeatures]
  rw [if_pos (by norm_num), if_pos (by norm_num), min_eq_right (by norm_num)]
  norm_num

/-- Python truthiness of the C3 transcript. -/
theorem c3_tt : truthyTranscript (some c3transcript) = some c3transcript := by decide

/-- C3 counterexample.  With the keyword and behavioural layers scoring 0, no
classifier loaded, and an audio layer scoring 0.15, the code fuses to
0.15 x 0.3 / 0.9 = 1/20 — the audio layer inherits the classifier's 0.3
positional weight — while the claim's identity-keyed renormalisation
(0.15 x 0.1 / 0.7 = 3/140) gives a different value. -/
theorem C3_counterexample :
    fuseScores (availableScores none (some c3transcript) (some c3audioFeatures)) = 1/20 ∧
    specFusedScore (some ((keywordAnalyze c3transcript).score))
      (some ((analyzeBehavior c3transcript).score)) none
      (some (analyzeAudioFeatures c3audioFeatures)) = 3/140 ∧
    ((1:ℚ)/20) ≠ 3/140 := by
  refine ⟨?_, ?_, by norm_num⟩
  · have ha : availableScores none (some c3transcript) (some c3audioFeatures) =
        [0, 0, 3/20] := by
      simp [availableScores, c3_tt, c3_kwScore, c3_behScore, c3_audio]
    rw [ha, fuseScores, if_neg (by simp)]
    norm_num
  · rw [c3_kwScore, c3_behScore, c3_audio]
    simp only [specFusedScore, List.filterMap_cons, Option.map_some', Option.map_none']
    rw [if_neg (by simp)]
    norm_num

/-- C3 (amended): the fused score is the weighted average of the available
scores with the weight list [0.4, 0.2, 0.3, 0.1] truncated to the NUMBER of
available scores and renormalised, the weights attaching positionally to the
scores in append order (keyword, behavioural, classifier, audio, of those
present).  In particular, with a transcript and audio but no classifier the
three scores receive weights 0.4/0.9, 0.2/0.9 and 0.3/0.9: the audio layer
inherits the classifier's 0.3 weight rather than keeping its 0.1 weight. -/
theorem C3_positional_weights (t : String) (af : AudioFeatures) (h : t.isEmpty = false) :
    availableScores none (some t) (some af) =
      [(keywordAnalyze t).score, (analyzeBehavior t).score, analyzeAudioFeatures af] ∧
    (∀ k b a : ℚ, fuseScores [k, b, a] = (4/10 * k + 2/10 * b + 3/10 * a) / (9/10)) ∧
    (∀ k b : ℚ, fuseScores [k, b] = (4/10 * k + 2/10 * b) / (6/10)) ∧
    (∀ k b m a : ℚ, fuseScores [k, b, m, a] =
      4/10 * k + 2/10 * b + 3/10 * m + 1/10 * a) := by
  refine ⟨?_, ?_, ?_, ?_⟩
  · simp [availableScores, truthyTranscript, h]
  · intro k b a
    rw [fuseScores, if_neg (by simp)]
    norm_num
    ring
  · intro k b
    rw [fuseScores, if_neg (by simp)]
    norm_num
    ring
  · intro k b m a
    rw [fuseScores, if_neg (by simp)]
    norm_num
    ring

/-- Witness for C3_positional_weights at the concrete benign transcript. -/
theorem C3_positional_weights_witness :
    availableScores none (some c3transcript) (some c3audioFeatures) =
      [(keywordAnalyze c3transcript).score, (analyzeBehavior c3transcript).score,
        analyzeAudioFeatures c3audioFeatures] :=
  (C3_positional_weights c3transcript c3audioFeatures (by decide)).1

/-- C4 counterexample.  The claim says national-ID-2 (PAN) values pass through
unmasked; the code masks a PAN to its first two characters, four X, and its
last two characters. -/
theorem C4_counterexample :
    maskSensitive ("pan") ("ABCDE1234F") = "ABXXXX4F" ∧
    maskSensitive ("pan") ("ABCDE1234F") ≠ "ABCDE1234F" := by decide

/-- C4 (amended): the stored value of every accepted extracted entity is the
type-specific mask of the raw match: one-time-codes and security codes are
fully masked; aadhaar, card numbers and bank account numbers reveal only
their last four digits; PAN values are masked to first-two + XXXX + last-two
(not passed through); every other entity type passes through unmasked. -/
theorem C4_masking :
    (∀ v : String, maskSensitive ("otp") v = "XXXX") ∧
    (∀ v : String, maskSensitive ("cvv") v = "XXX") ∧
    (∀ v : String, 4 ≤ (pyDigits v).length →
      maskSensitive ("aadhaar") v = "XXXX-XXXX-" ++ String.mk (takeLastChars 4 (pyDigits v))) ∧
    (∀ v : String, 4 ≤ (pyDigits v).length →
      maskSensitive ("credit_card") v =
        "XXXX-XXXX-XXXX-" ++ String.mk (takeLastChars 4 (pyDigits v))) ∧
    (∀ v : String, 4 ≤ v.length →
      maskSensitive ("bank_account") v = "XXXXXX" ++ String.mk (takeLastChars 4 v.toList)) ∧
    (∀ v : String, 4 ≤ v.length →
      maskSensitive ("pan") v =
        String.mk (v.toList.take 2) ++ "XXXX" ++ String.mk (takeLastChars 2 v.toList)) ∧
    (∀ ty v : String,
      ty ∉ (["aadhaar", "pan", "credit_card", "bank_account", "otp", "cvv"] : List String) →
      maskSensitive ty v = v) ∧
    (∀ (tr : String) (conf : PatternMatch → ℚ) (ms : List PatternMatch),
      ∀ e ∈ extractCore tr conf ms, ∃ m ∈ ms,
        e.entity_type = m.entity_type ∧ e.value = maskSensitive m.entity_type m.value) := by
  refine ⟨?_, ?_, ?_, ?_, ?_, ?_, ?_, ?_⟩
  · intro v
    unfold maskSensitive
    rw [if_neg (by decide), if_neg (by decide), if_neg (by decide), if_neg (by decide),
      if_pos rfl]
  · intro v
    unfold maskSensitive
    rw [if_neg (by decide), if_neg (by decide), if_neg (by decide), if_neg (by decide),
      if_neg (by decide), if_pos rfl]
  · intro v h
    unfold maskSensitive
    rw [if_pos rfl, if_pos h]
  · intro v h
    unfold maskSensitive
    rw [if_neg (by decide), if_neg (by decide), if_pos rfl, if_pos h]
  · intro v h
    unfold maskSensitive
    rw [if_neg (by decide), if_neg (by decide), if_neg (by decide), if_pos rfl, if_pos h]
  · intro v h
    unfold maskSensitive
    rw [if_neg (by decide), if_pos rfl, if_pos h]
  · intro ty v hne
    unfold maskSensitive
    rw [if_neg (fun hh => hne (by rw [hh]; decide)),
      if_neg (fun hh => hne (by rw [hh]; decide)),
      if_neg (fun hh => hne (by rw [hh]; decide)),
      if_neg (fun hh => hne (by rw [hh]; decide)),
      if_neg (fun hh => hne (by rw [hh]; decide)),
      if_neg (fun hh => hne (by rw [hh]; decide))]
  · intro tr conf ms e he
    simp only [extractCore] at he
    have hmem := mem_dedupEntities _ _ he
    rcases List.mem_filterMap.mp hmem with ⟨m, hm, hf⟩
    by_cases hc : conf m < 3/10
    · rw [if_pos hc] at hf
      cases hf
    · rw [if_neg hc] at hf
      have he2 := Option.some.inj hf
      subst he2
      exact ⟨m, hm, rfl, rfl⟩

/-- Witness for C4_masking at concrete aadhaar and bank-account values. -/
theorem C4_masking_witness :
    maskSensitive ("aadhaar") ("1234 5678 9012") = "XXXX-XXXX-9012" ∧
    maskSensitive ("bank_account") ("123456789") = "XXXXXX6789" := by
  constructor
  · rw [C4_masking.2.2.1 ("1234 5678 9012") (by decide)]
    decide
  · rw [C4_masking.2.2.2.2.1 ("123456789") (by decide)]
    decide

/-- C5: within handle_audio_chunk, the evidence store (store_audio_chunk) is
invoked only when the turn's fused threat score strictly exceeds the
configured low threshold; when the score is at or below the low threshold no
store effect occurs, so that turn's audio is never persisted. -/
theorem C5_store_gated (st : Settings) (b : Bool) (sess : Option Session) (vad : VadResult)
    (tr : AnalysisResult) (seq : ℕ) :
    ((∃ sc sq, Effect.storeAudio sc sq ∈ (handleAudioChunk st b sess vad tr seq).1) →
      st.threat_threshold_low < tr.threat_score) ∧
    (tr.threat_score ≤ st.threat_threshold_low →
      ∀ sc sq, Effect.storeAudio sc sq ∉ (handleAudioChunk st b sess vad tr seq).1) := by
  cases sess with
  | none => simp [handleAudioChunk]
  | some s =>
    by_cases hsp : vad.is_speech = false
    · simp [handleAudioChunk, hsp]
    · by_cases hai : (s.ai_handoff && b) = true
      · simp [handleAudioChunk, hsp, hai]
      · by_cases hlow : st.threat_threshold_low < tr.threat_score
        · exact ⟨fun _ => hlow, fun hle => absurd hlow (not_lt.mpr hle)⟩
        · by_cases hhigh : st.threat_threshold_high < tr.threat_score
          · constructor
            · rintro ⟨sc, sq, hmem⟩
              simp [handleAudioChunk, hsp, hai, hhigh, hlow] at hmem
            · intro hle sc sq hmem
              simp [handleAudioChunk, hsp, hai, hhigh, hlow] at hmem
          · constructor
            · rintro ⟨sc, sq, hmem⟩
              simp [handleAudioChunk, hsp, hai, hhigh, hlow] at hmem
            · intro hle sc sq hmem
              simp [handleAudioChunk, hsp, hai, hhigh, hlow] at hmem

/-- Witness for C5_store_gated: a turn scoring 0.5 does produce a store
effect, and the theorem then yields 0.3 < 0.5. -/
theorem C5_store_gated_witness : defaultSettings.threat_threshold_low < (1:ℚ)/2 :=
  (C5_store_gated defaultSettings false (some {}) ⟨true, 0, 0⟩ (constResult (1/2)) 0).1
    ⟨1/2, 0, by norm_num [handleAudioChunk, constResult, defaultSettings]⟩

/-- rangeStep over an empty Python range. -/
theorem rangeStep_zero (step : ℕ) : rangeStep 0 step = [] := by
  unfold rangeStep
  have h : (0 + step - 1) / step = 0 := by
    rcases Nat.eq_zero_or_pos step with h | h
    · simp [h]
    · exact Nat.div_eq_of_lt (by omega)
  rw [h, List.range_zero, List.map_nil]

set_option maxRecDepth 8000 in
/-- C6: a chunk whose VAD result reports no speech short-circuits the
handler — no transcription effect, no scoring effect, no store effect, and
the session is returned unchanged; and a 30 ms all-zero frame is classified
as non-speech by detect_voice_activity whether or not the VAD collaborator is
available (with it, the frame loop examines zero frames; without it, the
all-zero energy is below the fallback threshold). -/
theorem C6_non_speech_short_circuit :
    (∀ (st : Settings) (b : Bool) (s : Session) (vad : VadResult) (tr : AnalysisResult)
      (seq : ℕ), vad.is_speech = false →
        handleAudioChunk st b (some s) vad tr seq = ([], some s)) ∧
    (∀ vf : Option (List Int → Bool),
      (detectVoiceActivity defaultSettings vf (List.replicate 480 0)).is_speech = false) := by
  have h0 : rmsSqOf (List.replicate 480 0) = 0 := by
    unfold rmsSqOf
    rw [if_neg (by rw [List.length_replicate]; omega)]
    rw [List.map_replicate, show (((0 : Int) : ℚ) / 32768) ^ 2 = 0 by norm_num,
      List.sum_replicate, smul_zero, zero_div]
  constructor
  · intro st b s vad tr seq h
    simp [handleAudioChunk, h]
  · intro vf
    cases vf with
    | none =>
      simp only [detectVoiceActivity, energyIsSpeech, h0]
      norm_num
    | some f =>
      simp only [detectVoiceActivity, defaultSettings]
      rw [if_pos (by rw [List.length_replicate]; omega)]
      rw [List.length_replicate,
        show (480 : ℕ) - 16000 * 30 / 1000 = 0 from by norm_num, rangeStep_zero]
      simp only [List.map_nil, List.filter_nil, List.length_nil]
      norm_num

/-- Witness for C6_non_speech_short_circuit applied to a concrete non-speech
VAD result. -/
theorem C6_non_speech_short_circuit_witness :
    handleAudioChunk defaultSettings false (some {}) ⟨false, 0, 0⟩ (constResult 0) 0 =
      ([], some {}) :=
  C6_non_speech_short_circuit.1 defaultSettings false {} ⟨false, 0, 0⟩ (constResult 0) 0 rfl

set_option maxRecDepth 8000 in
/-- C7 counterexample.  The claim requires a frame of unsupported duration to
be rejected with an InvalidFrameDuration error.  For a 15 ms chunk (240
samples, not a 10/20/30 ms equivalent) the code's gate raises nothing and
returns an ordinary non-speech result — its frame loop examines no samples at
all — while the spec-modelled duration check rejects the same chunk. -/
theorem C7_counterexample :
    detectVoiceActivity defaultSettings (some fun _ => true) c7samples =
      { is_speech := false, speech_duration_ms := 0, speechFraction := 0 } ∧
    specFrameDurationCheck defaultSettings c7samples =
      Except.error "InvalidFrameDuration" := by
  constructor
  · simp only [detectVoiceActivity, c7samples, defaultSettings]
    rw [if_pos (by rw [List.length_replicate]; omega)]
    rw [List.length_replicate,
      show (240 : ℕ) - 16000 * 30 / 1000 = 0 from by norm_num, rangeStep_zero]
    simp only [List.map_nil, List.filter_nil, List.length_nil]
    norm_num
  · rfl

/-- C7 (amended): detect_voice_activity never rejects a frame and never
raises an InvalidFrameDuration error: it slices whatever it is given into
30 ms sub-frames, silently dropping the tail (and, due to the loop bound,
also the final complete frame).  In particular any chunk of at most 480
samples — of supported duration or not — is processed without error and
classified non-speech with zero VAD frames examined. -/
theorem C7_no_rejection (f : List Int → Bool) (samples : List Int)
    (h : samples.length ≤ 480) :
    (detectVoiceActivity defaultSettings (some f) samples).is_speech = false ∧
    (detectVoiceActivity defaultSettings (some f) samples).speech_duration_ms = 0 := by
  by_cases h0 : samples.length = 0
  · have hs : samples = [] := List.length_eq_zero.mp h0
    subst hs
    have hrms : rmsSqOf [] = 0 := by
      unfold rmsSqOf
      rw [if_pos (show ([] : List Int).length = 0 from rfl)]
    simp only [detectVoiceActivity, energyIsSpeech, hrms]
    norm_num
  · have hpos : 0 < samples.length := Nat.pos_of_ne_zero h0
    have hsub : samples.length - 16000 * 30 / 1000 = 0 := by omega
    simp only [detectVoiceActivity, defaultSettings]
    rw [if_pos hpos, hsub, rangeStep_zero]
    simp only [List.map_nil, List.filter_nil, List.length_nil]
    norm_num

set_option maxRecDepth 8000 in
/-- Witness for C7_no_rejection on a 100-sample (6.25 ms) chunk. -/
theorem C7_no_rejection_witness :
    (detectVoiceActivity defaultSettings (some fun _ => false)
      (List.replicate 100 5)).is_speech = false ∧
    (detectVoiceActivity defaultSettings (some fun _ => false)
      (List.replicate 100 5)).speech_duration_ms = 0 :=
  C7_no_rejection (fun _ => false) (List.replicate 100 5) (by simp)

set_option maxRecDepth 10000 in
/-- findall per category on the C8 example transcript: only the financial
category matches (CVV and OTP); in particular no urgency keyword occurs. -/
theorem c8_catMatches : categoryMatches c8transcript = [("urgent", []),
    ("financial", ["CVV", "OTP"]), ("impersonation", []), ("threats", []),
    ("remote_access", []), ("verification", []), ("prize", [])] := by decide

set_option maxRecDepth 10000 in
/-- Behavioural pattern hits on the C8 transcript: one high-pressure pattern
(the substring "now"). -/
theorem c8_behHits : behavioralHitCounts c8transcript =
    [("high_pressure", 1), ("secrecy", 0), ("isolation", 0), ("unprofessional", 0)] := by
  decide

set_option maxRecDepth 10000 in
/-- Word statistics of the C8 transcript: 14 words, 13 distinct. -/
theorem c8_words : (wordList c8transcript).length = 14 ∧
    (wordList c8transcript).dedup.length = 13 := by decide

/-- Keyword layer on the C8 transcript: score 0.4, no bonus. -/
theorem c8_kw : keywordAnalyze c8transcript =
    { score := 2/5, matched_keywords := ["CVV", "OTP"],
      indicators := ["financial_keywords_detected"] } := by
  rw [keywordAnalyze, c8_catMatches]
  norm_num [categoryScore]
  refine ⟨?_, by decide, by decide⟩
  rw [if_neg (by decide : ¬(["CVV", "OTP"] = ([] : List String)))]
  rw [min_eq_right (by norm_num : (2:ℚ)/5 ≤ 1)]

/-- Behavioural layer on the C8 transcript: score 0.15, flag high_pressure. -/
theorem c8_beh : analyzeBehavior c8transcript =
    { score := 3/20, flags := ["high_pressure"] } := by
  rw [analyzeBehavior, c8_behHits]
  rw [if_neg, if_neg] <;>
    · norm_num [c8_words.1, c8_words.2]

/-- Rounding the C8 fused score to three decimals. -/
theorem c8_round : round3 (19/60) = 317/1000 := by
  rw [round3_of_ceil (19/60) 316 (Int.floor_eq_iff.mpr (by norm_num)) (by push_cast; norm_num)]
  norm_num

/-- Fusing the two available layer scores of the C8 transcript. -/
theorem c8_fuse : fuseScores [2/5, 3/20] = 19/60 := by
  rw [fuseScores, if_neg (by simp)]
  norm_num

/-- Python truthiness of the C8 transcript. -/
theorem c8_tt : truthyTranscript (some c8transcript) = some c8transcript := by decide

/-- The available scores for the C8 transcript with no classifier and no
audio. -/
theorem c8_avail : availableScores none (some c8transcript) none = [2/5, 3/20] := by
  simp [availableScores, c8_tt, c8_kw, c8_beh]

/-- Tier of the C8 turn. -/
theorem c8_level :
    (analyze defaultSettings none (some c8transcript) none).threat_level = "medium" := by
  rw [analyze]
  simp only [c8_tt, c8_avail, c8_fuse]
  norm_num [getThreatLevel, defaultSettings]

/-- Reported (rounded) score of the C8 turn. -/
theorem c8_score :
    (analyze defaultSettings none (some c8transcript) none).threat_score = 317/1000 := by
  rw [analyze]
  simp only [c8_tt, c8_avail, c8_fuse, c8_round]

/-- Indicators of the C8 turn: only the financial category indicator. -/
theorem c8_inds : (analyze defaultSettings none (some c8transcript) none).indicators =
    ["financial_keywords_detected"] := by
  rw [analyze]
  simp only [c8_tt, Option.map_some', Option.bind_none, c8_kw]
  decide

/-- Recommended action of the C8 turn. -/
theorem c8_action :
    (analyze defaultSettings none (some c8transcript) none).recommended_action =
      "increase_monitoring" := by
  rw [analyze]
  simp only [c8_tt, c8_avail, c8_fuse]
  norm_num [getRecommendedAction, defaultSettings]

/-- Matched keywords of the C8 turn. -/
theorem c8_keywords : (analyze defaultSettings none (some c8transcript) none).keywords =
    ["CVV", "OTP"] := by
  rw [analyze]
  simp only [c8_tt, Option.map_some', c8_kw]
  decide

/-- Behavioural flags of the C8 turn. -/
theorem c8_flags :
    (analyze defaultSettings none (some c8transcript) none).behavioral_flags =
      ["high_pressure"] := by
  rw [analyze]
  simp only [c8_tt, Option.map_some', c8_beh]
  decide

/-- C8 counterexample.  For the example transcript the claim requires the
urgency category to fire, the multiple-category bonus with its
multiple_threat_categories indicator, and a tier of high or critical.  The
code instead fires only the financial category and tiers the turn medium. -/
theorem C8_counterexample :
    (analyze defaultSettings none (some c8transcript) none).threat_level = "medium" ∧
    (analyze defaultSettings none (some c8transcript) none).threat_level ≠ "high" ∧
    (analyze defaultSettings none (some c8transcript) none).threat_level ≠ "critical" ∧
    "urgent_keywords_detected" ∉
      (analyze defaultSettings none (some c8transcript) none).indicators ∧
    "multiple_threat_categories" ∉
      (analyze defaultSettings none (some c8transcript) none).indicators := by
  refine ⟨c8_level, ?_, ?_, ?_, ?_⟩
  · rw [c8_level]; decide
  · rw [c8_level]; decide
  · rw [c8_inds]; decide
  · rw [c8_inds]; decide

/-- C8 (amended): scoring the example transcript with no classifier and no
audio features, the keyword layer fires ONLY the financial-request category
(matching CVV and OTP, score 0.4); the multiple-category bonus does not apply
and no multiple_threat_categories indicator is emitted; the behavioural layer
scores 0.15 (high_pressure, from the substring "now"); the fused score is
19/60, reported rounded as 0.317; and the resulting tier is medium with
recommended action increase_monitoring. -/
theorem C8_example_transcript :
    categoryMatches c8transcript = [("urgent", []), ("financial", ["CVV", "OTP"]),
      ("impersonation", []), ("threats", []), ("remote_access", []), ("verification", []),
      ("prize", [])] ∧
    keywordAnalyze c8transcript =
      { score := 2/5, matched_keywords := ["CVV", "OTP"],
        indicators := ["financial_keywords_detected"] } ∧
    analyzeBehavior c8transcript = { score := 3/20, flags := ["high_pressure"] } ∧
    fuseScores (availableScores none (some c8transcript) none) = 19/60 ∧
    (analyze defaultSettings none (some c8transcript) none).threat_score = 317/1000 ∧
    (analyze defaultSettings none (some c8transcript) none).threat_level = "medium" ∧
    (analyze defaultSettings none (some c8transcript) none).recommended_action =
      "increase_monitoring" ∧
    (analyze defaultSettings none (some c8transcript) none).keywords = ["CVV", "OTP"] ∧
    (analyze defaultSettings none (some c8transcript) none).behavioral_flags =
      ["high_pressure"] :=
  ⟨c8_catMatches, c8_kw, c8_beh, by rw [c8_avail]; exact c8_fuse,
    c8_score, c8_level, c8_action, c8_keywords, c8_flags⟩

end Rakshak
